import Mathlib

/-!
Shallow embedding of the MPU6500 STM32 driver (src/mpu6500.h, single
translation unit containing both the header and the implementation).

Modelling conventions:
* `HALStatus` mirrors `HAL_StatusTypeDef` (`HAL_OK`, `HAL_ERROR`, `HAL_BUSY`,
  `HAL_TIMEOUT`).
* The I2C transport (`HAL_I2C_Mem_Write` / `HAL_I2C_Mem_Read`) is an external
  collaborator; it is modelled as a `Bus σ`: a pair of state-passing
  operations over an abstract transport state `σ`.  Two concrete instances
  are used by the theorems: `scriptBus` (a call-log double fed from a list of
  scripted responses, used for error-path and trace claims) and `regBus`
  (a faithful always-succeeding register file, used for register-value
  claims).
* `HAL_Delay` only burns time; it has no effect on any modelled state and is
  embedded as the identity.
* C machine integers are embedded as `Nat` / `Int` with explicit wrapping:
  `toInt16` models a cast to `int16_t`, `toInt32` models `int32_t`
  two's-complement wrapping of the accumulating sums, `toUInt32n` models the
  usual-arithmetic conversion of an `int32_t` operand to `uint32_t`.
* The C `float` values produced by `MPU6500_ReadAccel` / `MPU6500_ReadGyro`
  are embedded as rationals (`ℚ`).  The accelerometer sensitivities are
  powers of two and the combined raw values fit in 16 bits, so the
  accelerometer float division is exact and is embedded as exact rational
  division.  The gyroscope division by 131.0f / 65.5f / 32.8f / 16.4f is
  not exact in general; it is embedded as `fl32` (correct IEEE-754 binary32
  rounding, to nearest, ties to even) of the rational quotient, and the two
  non-dyadic sensitivity constants are embedded as the exact values of
  their binary32 literals.
* The preprocessor-selected full-scale configuration
  (`MPU6500_DEFAULT_ACCEL_CONFIG` / `MPU6500_DEFAULT_GYRO_CONFIG` and the
  `#if` chains selecting `MPU6500_ACCEL_SENS` / `MPU6500_GYRO_SENS`) is
  embedded as an explicit parameter `accelCfg` / `gyroCfg` passed to the
  functions that mention the macros, together with selection functions
  mirroring the `#if` chains; the shipped build instantiates them with the
  default configuration values.
-/

/-- Status type mirroring `HAL_StatusTypeDef`. -/
inductive HALStatus where
  | ok
  | error
  | busy
  | timeout
deriving DecidableEq

/-- One register access on the I2C bus, as recorded by the call-log double.
`wr dev reg data` is a 1-byte memory write, `rd dev reg len` a block read. -/
inductive Access where
  | wr (dev reg data : Nat)
  | rd (dev reg len : Nat)
deriving DecidableEq

/-- Abstract transport: the external `HAL_I2C_Mem_Write` / `HAL_I2C_Mem_Read`
collaborators, state-passing over a transport state `σ`.  `memWrite s dev reg
data` writes one byte; `memRead s dev reg len` reads a block of `len` bytes. -/
structure Bus (σ : Type) where
  memWrite : σ → Nat → Nat → Nat → HALStatus × σ
  memRead : σ → Nat → Nat → Nat → HALStatus × List Nat × σ

/-- State of the scripted transport double: a list of pending responses
(status plus, for reads, the returned bytes) and the log of accesses made. -/
structure ScriptState where
  resps : List (HALStatus × List Nat)
  log : List Access
deriving DecidableEq

/-- Scripted transport double: each access consumes the next scripted
response (an exhausted script answers `ok` with zero bytes) and is appended
to the call log. -/
def scriptBus : Bus ScriptState where
  memWrite := fun s dev reg data =>
    match s.resps with
    | [] => (HALStatus.ok, ⟨[], s.log ++ [Access.wr dev reg data]⟩)
    | r :: rest => (r.1, ⟨rest, s.log ++ [Access.wr dev reg data]⟩)
  memRead := fun s dev reg len =>
    match s.resps with
    | [] => (HALStatus.ok, List.replicate len 0, ⟨[], s.log ++ [Access.rd dev reg len]⟩)
    | r :: rest => (r.1, r.2, ⟨rest, s.log ++ [Access.rd dev reg len]⟩)

/-- Faithful always-succeeding transport: the device is a register file
mapping register addresses to byte values; block reads return consecutive
registers. -/
def regBus : Bus (Nat → Nat) where
  memWrite := fun f _ reg data => (HALStatus.ok, Function.update f reg data)
  memRead := fun f _ reg len =>
    (HALStatus.ok, (List.range len).map fun i => f (reg + i), f)

/-- Cast to `int16_t` (two's-complement wrap into `[-32768, 32767]`). -/
def toInt16 (n : Int) : Int := (n + 32768) % 65536 - 32768

/-- Two's-complement wrap of an `int32_t` accumulation. -/
def toInt32 (n : Int) : Int := (n + 2147483648) % 4294967296 - 2147483648

/-- Usual-arithmetic conversion of an `int32_t` value to `uint32_t`
(as happens to `accel_sum[i]` in `accel_sum[i] / samples` where `samples`
is `uint32_t`). -/
def toUInt32n (n : Int) : Nat := (n % 4294967296).toNat

/-- Round a rational to the nearest integer, ties to even (the IEEE-754
default rounding for a value halfway between two integers). -/
def roundHalfEven (x : ℚ) : Int :=
  if x - Int.floor x < 1 / 2 then Int.floor x
  else if 1 / 2 < x - Int.floor x then Int.floor x + 1
  else if Int.floor x % 2 = 0 then Int.floor x else Int.floor x + 1

/-- Correct rounding of a rational to IEEE-754 binary32 (single) precision:
round to nearest, ties to even, at 24 significant bits, with unbounded
exponent range.  Every nonzero value the driver's gyroscope conversion
produces has magnitude between 1/131 and 32768/16.4 — far inside the
binary32 normal range — so this coincides exactly with the binary32
rounding the C `float` division performs; overflow and subnormals are
unreachable. -/
def fl32 (q : ℚ) : ℚ :=
  if q = 0 then 0
  else
    ((roundHalfEven (q / 2 ^ (Int.log 2 |q| - 23)) : Int) : ℚ) *
      2 ^ (Int.log 2 |q| - 23)

/- Register addresses used by the driver (subset of the register map in
mpu6500.c actually touched by the embedded operations). -/

def CONFIG : Nat := 0x1A
def GYRO_CONFIG : Nat := 0x1B
def ACCEL_CONFIG : Nat := 0x1C
def ACCEL_CONFIG_2 : Nat := 0x1D
def INT_PIN_CFG : Nat := 0x37
def INT_ENABLE : Nat := 0x38
def ACCEL_XOUT_H : Nat := 0x3B
def TEMP_OUT_H : Nat := 0x41
def GYRO_XOUT_H : Nat := 0x43
def PWR_MGMT_1 : Nat := 0x6B
def WHO_AM_I : Nat := 0x75

/-- `#define MPU6500_ADDR 0x69`. -/
def MPU6500_ADDR : Nat := 0x69

/- Full-scale selection constants (`MPU6500_ACCEL_FS_*`, `MPU6500_GYRO_FS_*`)
and the default build configuration. -/

def MPU6500_ACCEL_FS_2G : Nat := 0x00
def MPU6500_ACCEL_FS_4G : Nat := 0x08
def MPU6500_ACCEL_FS_8G : Nat := 0x10
def MPU6500_ACCEL_FS_16G : Nat := 0x18

def MPU6500_GYRO_FS_250DPS : Nat := 0x00
def MPU6500_GYRO_FS_500DPS : Nat := 0x08
def MPU6500_GYRO_FS_1000DPS : Nat := 0x10
def MPU6500_GYRO_FS_2000DPS : Nat := 0x18

/-- `#define MPU6500_DEFAULT_ACCEL_CONFIG MPU6500_ACCEL_FS_4G`. -/
def MPU6500_DEFAULT_ACCEL_CONFIG : Nat := MPU6500_ACCEL_FS_4G

/-- `#define MPU6500_DEFAULT_GYRO_CONFIG MPU6500_GYRO_FS_500DPS`. -/
def MPU6500_DEFAULT_GYRO_CONFIG : Nat := MPU6500_GYRO_FS_500DPS

/-- The `#if` chain selecting `MPU6500_ACCEL_SENS` from the configured
accelerometer full-scale range (the invalid branch is `#error` in the source
and never builds; here it yields 0). -/
def MPU6500_ACCEL_SENS_of (cfg : Nat) : ℚ :=
  if cfg = MPU6500_ACCEL_FS_2G then 16384
  else if cfg = MPU6500_ACCEL_FS_4G then 8192
  else if cfg = MPU6500_ACCEL_FS_8G then 4096
  else if cfg = MPU6500_ACCEL_FS_16G then 2048
  else 0

/-- The `#if` chain selecting `MPU6500_GYRO_SENS` from the configured
gyroscope full-scale range.  Each branch is the exact value of the C
`float` literal (131.0f, 65.5f, 32.8f, 16.4f LSB per degree/second):
131.0f and 65.5f are exactly representable; 32.8f is `0x42033333`, whose
value is `8598323 * 2 ^ -18`, and 16.4f is `0x41833333`, whose value is
`8598323 * 2 ^ -19` — the binary32 roundings of the decimals 32.8 and
16.4, which are not representable. -/
def MPU6500_GYRO_SENS_of (cfg : Nat) : ℚ :=
  if cfg = MPU6500_GYRO_FS_250DPS then 131
  else if cfg = MPU6500_GYRO_FS_500DPS then 131 / 2
  else if cfg = MPU6500_GYRO_FS_1000DPS then 8598323 / 262144
  else if cfg = MPU6500_GYRO_FS_2000DPS then 8598323 / 524288
  else 0

/-- Process-wide driver state: `int16_t accel_offset[3]; int16_t
gyro_offset[3];` (X, Y, Z per modality). -/
structure DriverState where
  accel_offset : Int × Int × Int
  gyro_offset : Int × Int × Int
deriving DecidableEq

/-- `HAL_Delay`: burns time only; identity on the modelled transport state. -/
def HAL_Delay {σ : Type} (s : σ) (_ms : Nat) : σ := s

/-- `MPU6500_WriteRegister(reg, data)`: one-byte `HAL_I2C_Mem_Write` at device
address `MPU6500_ADDR << 1`. -/
def MPU6500_WriteRegister {σ : Type} (bus : Bus σ) (s : σ) (reg data : Nat) :
    HALStatus × σ :=
  bus.memWrite s (MPU6500_ADDR <<< 1) reg data

/-- `MPU6500_ReadRegister(reg, &data)`: one-byte `HAL_I2C_Mem_Read` at device
address `MPU6500_ADDR << 1`.  `old` is the prior content of the caller's
`data` location (kept when the transport supplies no byte). -/
def MPU6500_ReadRegister {σ : Type} (bus : Bus σ) (s : σ) (reg : Nat)
    (old : Nat) : HALStatus × Nat × σ :=
  match bus.memRead s (MPU6500_ADDR <<< 1) reg 1 with
  | (status, bytes, s1) => (status, bytes.getD 0 old, s1)

/-- `MPU6500_Reset()`: write `0x80` (DEVICE_RESET) to `PWR_MGMT_1`. -/
def MPU6500_Reset {σ : Type} (bus : Bus σ) (s : σ) : HALStatus × σ :=
  MPU6500_WriteRegister bus s PWR_MGMT_1 0x80

/-- `MPU6500_ConfigureClock()`: write `0x01` (SLEEP clear, CLKSEL = 1) to
`PWR_MGMT_1`. -/
def MPU6500_ConfigureClock {σ : Type} (bus : Bus σ) (s : σ) : HALStatus × σ :=
  MPU6500_WriteRegister bus s PWR_MGMT_1 0x01

/-- `MPU6500_ConfigureAccel()`: write the full-scale range to `ACCEL_CONFIG`,
then `0x04` (DLPF 20 Hz) to `ACCEL_CONFIG_2`, aborting on the first failure. -/
def MPU6500_ConfigureAccel {σ : Type} (accelCfg : Nat) (bus : Bus σ) (s : σ) :
    HALStatus × σ :=
  match MPU6500_WriteRegister bus s ACCEL_CONFIG accelCfg with
  | (status, s1) =>
    if status ≠ HALStatus.ok then (status, s1)
    else
      match MPU6500_WriteRegister bus s1 ACCEL_CONFIG_2 0x04 with
      | (status2, s2) =>
        if status2 ≠ HALStatus.ok then (status2, s2) else (HALStatus.ok, s2)

/-- `MPU6500_ConfigureGyro()`: write the full-scale range to `GYRO_CONFIG`,
then `0x04` (DLPF 20 Hz) to `CONFIG`, aborting on the first failure. -/
def MPU6500_ConfigureGyro {σ : Type} (gyroCfg : Nat) (bus : Bus σ) (s : σ) :
    HALStatus × σ :=
  match MPU6500_WriteRegister bus s GYRO_CONFIG gyroCfg with
  | (status, s1) =>
    if status ≠ HALStatus.ok then (status, s1)
    else
      match MPU6500_WriteRegister bus s1 CONFIG 0x04 with
      | (status2, s2) =>
        if status2 ≠ HALStatus.ok then (status2, s2) else (HALStatus.ok, s2)

/-- `MPU6500_EnableTemperatureSensor()`: read `PWR_MGMT_1`, clear the
TEMP_DIS bit (bit 4: `regData &= ~(1 << 4)`, i.e. `&&& 0xEF` on a byte), and
write the result back. -/
def MPU6500_EnableTemperatureSensor {σ : Type} (bus : Bus σ) (s : σ) :
    HALStatus × σ :=
  match MPU6500_ReadRegister bus s PWR_MGMT_1 0 with
  | (status, regData, s1) =>
    if status ≠ HALStatus.ok then (status, s1)
    else MPU6500_WriteRegister bus s1 PWR_MGMT_1 (regData &&& 0xEF)

/-- `MPU6500_ConfigureInterrupts()`: write `0xB0` (ACTL, OPEN, LATCH_INT_EN)
to `INT_PIN_CFG`. -/
def MPU6500_ConfigureInterrupts {σ : Type} (bus : Bus σ) (s : σ) :
    HALStatus × σ :=
  match MPU6500_WriteRegister bus s INT_PIN_CFG 0xB0 with
  | (status, s1) =>
    if status ≠ HALStatus.ok then (status, s1) else (HALStatus.ok, s1)

/-- `MPU6500_Init()`: the six-step configuration sequence (reset; clock/wake;
two accelerometer writes; two gyroscope writes; temperature-enable
read-modify-write; interrupt-pin write), aborting on the first failing step
and propagating its status.  `accelCfg` / `gyroCfg` are the
preprocessor-selected default configurations. -/
def MPU6500_Init {σ : Type} (accelCfg gyroCfg : Nat) (bus : Bus σ) (s : σ) :
    HALStatus × σ :=
  match MPU6500_Reset bus s with
  | (st1, s1) =>
  if st1 ≠ HALStatus.ok then (st1, s1)
  else
    match MPU6500_ConfigureClock bus (HAL_Delay s1 100) with
    | (st2, s2) =>
    if st2 ≠ HALStatus.ok then (st2, s2)
    else
      match MPU6500_ConfigureAccel accelCfg bus s2 with
      | (st3, s3) =>
      if st3 ≠ HALStatus.ok then (st3, s3)
      else
        match MPU6500_ConfigureGyro gyroCfg bus s3 with
        | (st4, s4) =>
        if st4 ≠ HALStatus.ok then (st4, s4)
        else
          match MPU6500_EnableTemperatureSensor bus s4 with
          | (st5, s5) =>
          if st5 ≠ HALStatus.ok then (st5, s5)
          else
            match MPU6500_ConfigureInterrupts bus s5 with
            | (st6, s6) =>
            if st6 ≠ HALStatus.ok then (st6, s6) else (HALStatus.ok, s6)

/-- `MPU6500_EnableDataReadyInterrupts()`: unconditional full-byte write of
`0x01` (RAW_RDY_EN) to `INT_ENABLE`. -/
def MPU6500_EnableDataReadyInterrupts {σ : Type} (bus : Bus σ) (s : σ) :
    HALStatus × σ :=
  MPU6500_WriteRegister bus s INT_ENABLE 0x01

/-- `MPU6500_DisableDataReadyInterrupts()`: unconditional full-byte write of
`0x00` to `INT_ENABLE`. -/
def MPU6500_DisableDataReadyInterrupts {σ : Type} (bus : Bus σ) (s : σ) :
    HALStatus × σ :=
  MPU6500_WriteRegister bus s INT_ENABLE 0x00

/-- `MPU6500_ReadWhoAmI(&whoami)`: single-register read of `WHO_AM_I`;
`old` is the prior content of the caller's `whoami` location. -/
def MPU6500_ReadWhoAmI {σ : Type} (bus : Bus σ) (s : σ) (old : Nat) :
    HALStatus × Nat × σ :=
  MPU6500_ReadRegister bus s WHO_AM_I old

/-- `MPU6500_ReadRawAccel(&x, &y, &z)`: 6-byte block read at `ACCEL_XOUT_H`;
on success each axis is the `int16_t` cast of `(buffer[2i] << 8) |
buffer[2i+1]`; on failure the caller's locations `x y z` are untouched. -/
def MPU6500_ReadRawAccel {σ : Type} (bus : Bus σ) (s : σ) (x y z : Int) :
    HALStatus × (Int × Int × Int) × σ :=
  match bus.memRead s (MPU6500_ADDR <<< 1) ACCEL_XOUT_H 6 with
  | (status, buffer, s1) =>
    if status ≠ HALStatus.ok then (status, (x, y, z), s1)
    else
      (HALStatus.ok,
        (toInt16 ((buffer.getD 0 0 <<< 8 ||| buffer.getD 1 0 : Nat) : Int),
         toInt16 ((buffer.getD 2 0 <<< 8 ||| buffer.getD 3 0 : Nat) : Int),
         toInt16 ((buffer.getD 4 0 <<< 8 ||| buffer.getD 5 0 : Nat) : Int)),
        s1)

/-- `MPU6500_ReadRawGyro(&x, &y, &z)`: 6-byte block read at `GYRO_XOUT_H`;
same byte combination as the raw accelerometer read. -/
def MPU6500_ReadRawGyro {σ : Type} (bus : Bus σ) (s : σ) (x y z : Int) :
    HALStatus × (Int × Int × Int) × σ :=
  match bus.memRead s (MPU6500_ADDR <<< 1) GYRO_XOUT_H 6 with
  | (status, buffer, s1) =>
    if status ≠ HALStatus.ok then (status, (x, y, z), s1)
    else
      (HALStatus.ok,
        (toInt16 ((buffer.getD 0 0 <<< 8 ||| buffer.getD 1 0 : Nat) : Int),
         toInt16 ((buffer.getD 2 0 <<< 8 ||| buffer.getD 3 0 : Nat) : Int),
         toInt16 ((buffer.getD 4 0 <<< 8 ||| buffer.getD 5 0 : Nat) : Int)),
        s1)

/-- `MPU6500_ReadAccel(&x, &y, &z)`: 6-byte block read at `ACCEL_XOUT_H`;
per axis, the combined `int16_t` minus `accel_offset[i]` is stored into the
`int16_t` local `raw_i` (wrapping) and then divided by `MPU6500_ACCEL_SENS`.
`x y z` are the prior contents of the caller's output locations. -/
def MPU6500_ReadAccel {σ : Type} (accelCfg : Nat) (bus : Bus σ) (s : σ)
    (ds : DriverState) (x y z : ℚ) : HALStatus × (ℚ × ℚ × ℚ) × σ :=
  match bus.memRead s (MPU6500_ADDR <<< 1) ACCEL_XOUT_H 6 with
  | (status, buffer, s1) =>
    if status ≠ HALStatus.ok then (status, (x, y, z), s1)
    else
      let raw_x := toInt16
        (toInt16 ((buffer.getD 0 0 <<< 8 ||| buffer.getD 1 0 : Nat) : Int) -
          ds.accel_offset.1)
      let raw_y := toInt16
        (toInt16 ((buffer.getD 2 0 <<< 8 ||| buffer.getD 3 0 : Nat) : Int) -
          ds.accel_offset.2.1)
      let raw_z := toInt16
        (toInt16 ((buffer.getD 4 0 <<< 8 ||| buffer.getD 5 0 : Nat) : Int) -
          ds.accel_offset.2.2)
      (HALStatus.ok,
        ((raw_x : ℚ) / MPU6500_ACCEL_SENS_of accelCfg,
         (raw_y : ℚ) / MPU6500_ACCEL_SENS_of accelCfg,
         (raw_z : ℚ) / MPU6500_ACCEL_SENS_of accelCfg),
        s1)

/-- `MPU6500_ReadGyro(&x, &y, &z)`: same structure as `MPU6500_ReadAccel` at
`GYRO_XOUT_H`, with `gyro_offset` and `MPU6500_GYRO_SENS`.  Unlike the
accelerometer's power-of-two sensitivities, the gyroscope `float` division
rounds, so each quotient is passed through `fl32` (correct binary32
rounding); the dividend `(float)raw_i` is a 16-bit integer and therefore
exact. -/
def MPU6500_ReadGyro {σ : Type} (gyroCfg : Nat) (bus : Bus σ) (s : σ)
    (ds : DriverState) (x y z : ℚ) : HALStatus × (ℚ × ℚ × ℚ) × σ :=
  match bus.memRead s (MPU6500_ADDR <<< 1) GYRO_XOUT_H 6 with
  | (status, buffer, s1) =>
    if status ≠ HALStatus.ok then (status, (x, y, z), s1)
    else
      let raw_x := toInt16
        (toInt16 ((buffer.getD 0 0 <<< 8 ||| buffer.getD 1 0 : Nat) : Int) -
          ds.gyro_offset.1)
      let raw_y := toInt16
        (toInt16 ((buffer.getD 2 0 <<< 8 ||| buffer.getD 3 0 : Nat) : Int) -
          ds.gyro_offset.2.1)
      let raw_z := toInt16
        (toInt16 ((buffer.getD 4 0 <<< 8 ||| buffer.getD 5 0 : Nat) : Int) -
          ds.gyro_offset.2.2)
      (HALStatus.ok,
        (fl32 ((raw_x : ℚ) / MPU6500_GYRO_SENS_of gyroCfg),
         fl32 ((raw_y : ℚ) / MPU6500_GYRO_SENS_of gyroCfg),
         fl32 ((raw_z : ℚ) / MPU6500_GYRO_SENS_of gyroCfg)),
        s1)

/-- `MPU6500_ReadTemp(&temp)`: 2-byte block read at `TEMP_OUT_H`; on success
stores the `int16_t` cast of `(buffer[0] << 8) | buffer[1]`; on failure the
caller's location `temp` is untouched. -/
def MPU6500_ReadTemp {σ : Type} (bus : Bus σ) (s : σ) (temp : Int) :
    HALStatus × Int × σ :=
  match bus.memRead s (MPU6500_ADDR <<< 1) TEMP_OUT_H 2 with
  | (status, buffer, s1) =>
    if status ≠ HALStatus.ok then (status, temp, s1)
    else
      (HALStatus.ok,
        toInt16 ((buffer.getD 0 0 <<< 8 ||| buffer.getD 1 0 : Nat) : Int), s1)

/-- `MPU6500_Sleep()`: read `PWR_MGMT_1`, set the SLEEP bit
(`regData |= (1 << 6)`), write the result back. -/
def MPU6500_Sleep {σ : Type} (bus : Bus σ) (s : σ) : HALStatus × σ :=
  match MPU6500_ReadRegister bus s PWR_MGMT_1 0 with
  | (status, regData, s1) =>
    if status ≠ HALStatus.ok then (status, s1)
    else MPU6500_WriteRegister bus s1 PWR_MGMT_1 (regData ||| 0x40)

/-- `MPU6500_WakeUp()`: read `PWR_MGMT_1`, clear the SLEEP bit
(`regData &= ~(1 << 6)`, i.e. `&&& 0xBF` on a byte), write the result back. -/
def MPU6500_WakeUp {σ : Type} (bus : Bus σ) (s : σ) : HALStatus × σ :=
  match MPU6500_ReadRegister bus s PWR_MGMT_1 0 with
  | (status, regData, s1) =>
    if status ≠ HALStatus.ok then (status, s1)
    else MPU6500_WriteRegister bus s1 PWR_MGMT_1 (regData &&& 0xBF)

/-- The raw count expected for 1 g on the accelerometer Z axis:
`(int16_t)(1.0f * MPU6500_ACCEL_SENS)`.  The float product is the exact
integral sensitivity constant of the selected range, so its `int16_t` cast
is the corresponding integer; `calibExpectedZ_matches` certifies this
against the rational-valued constant selection. -/
def calibExpectedZ (accelCfg : Nat) : Int :=
  if accelCfg = MPU6500_ACCEL_FS_2G then 16384
  else if accelCfg = MPU6500_ACCEL_FS_4G then 8192
  else if accelCfg = MPU6500_ACCEL_FS_8G then 4096
  else if accelCfg = MPU6500_ACCEL_FS_16G then 2048
  else 0

/-- Sampling loop of `MPU6500_InitOffsetCalibration`: per remaining
iteration, read the raw accelerometer triple then the raw gyroscope triple
(aborting with the transport's status on either failure), accumulate each
axis into the `int32_t` sums — the accelerometer Z sample first has
`calibExpectedZ` subtracted — and delay 5 ms. -/
def calibLoop {σ : Type} (accelCfg : Nat) (bus : Bus σ) :
    Nat → σ → Int × Int × Int → Int × Int × Int →
    HALStatus × ((Int × Int × Int) × (Int × Int × Int)) × σ
  | 0, s, aSum, gSum => (HALStatus.ok, (aSum, gSum), s)
  | n + 1, s, aSum, gSum =>
    match MPU6500_ReadRawAccel bus s 0 0 0 with
    | (status, (ax, ay, az), s1) =>
      if status ≠ HALStatus.ok then (status, (aSum, gSum), s1)
      else
        match MPU6500_ReadRawGyro bus s1 0 0 0 with
        | (status2, (gx, gy, gz), s2) =>
          if status2 ≠ HALStatus.ok then (status2, (aSum, gSum), s2)
          else
            calibLoop accelCfg bus n (HAL_Delay s2 5)
              (toInt32 (aSum.1 + ax), toInt32 (aSum.2.1 + ay),
               toInt32 (aSum.2.2 + (az - calibExpectedZ accelCfg)))
              (toInt32 (gSum.1 + gx), toInt32 (gSum.2.1 + gy),
               toInt32 (gSum.2.2 + gz))

/-- `MPU6500_InitOffsetCalibration(samples)`: reject `samples == 0` with
`HAL_ERROR` before any bus access; wake the device; run the sampling loop;
on success store the six per-axis quotients `sum / samples` — an `int32_t /
uint32_t` division, hence performed unsigned — cast to `int16_t` into the
calibration offsets.  On any failure the offsets are left unchanged. -/
def MPU6500_InitOffsetCalibration {σ : Type} (accelCfg : Nat) (bus : Bus σ)
    (s : σ) (ds : DriverState) (samples : Nat) :
    HALStatus × DriverState × σ :=
  if samples = 0 then (HALStatus.error, ds, s)
  else
    match MPU6500_WakeUp bus s with
    | (status, s1) =>
      if status ≠ HALStatus.ok then (status, ds, s1)
      else
        match calibLoop accelCfg bus samples s1 (0, 0, 0) (0, 0, 0) with
        | (status2, (aSum, gSum), s2) =>
          if status2 ≠ HALStatus.ok then (status2, ds, s2)
          else
            (HALStatus.ok,
              { accel_offset :=
                  (toInt16 ((toUInt32n aSum.1 / samples : Nat) : Int),
                   toInt16 ((toUInt32n aSum.2.1 / samples : Nat) : Int),
                   toInt16 ((toUInt32n aSum.2.2 / samples : Nat) : Int)),
                gyro_offset :=
                  (toInt16 ((toUInt32n gSum.1 / samples : Nat) : Int),
                   toInt16 ((toUInt32n gSum.2.1 / samples : Nat) : Int),
                   toInt16 ((toUInt32n gSum.2.2 / samples : Nat) : Int)) },
              s2)

/-! ## Helper lemmas -/

theorem toInt16_eq_self_of_bounds (n : Int) (h1 : -32768 ≤ n)
    (h2 : n < 32768) : toInt16 n = n := by
  unfold toInt16
  omega

theorem calibExpectedZ_matches (cfg : Nat) :
    calibExpectedZ cfg =
      toInt16 (Int.floor ((1 : ℚ) * MPU6500_ACCEL_SENS_of cfg)) := by
  unfold calibExpectedZ MPU6500_ACCEL_SENS_of toInt16
  split_ifs <;> norm_num

theorem int_log2_eq {r : ℚ} {x : Int} (hr : 0 < r) (h1 : (2 : ℚ) ^ x ≤ r)
    (h2 : r < (2 : ℚ) ^ (x + 1)) : Int.log 2 r = x := by
  have hc : ((2 : ℕ) : ℚ) = (2 : ℚ) := by norm_num
  rw [← hc] at h1 h2
  have ha := (Int.zpow_le_iff_le_log (b := 2) (by norm_num) hr).1 h1
  have hb := (Int.lt_zpow_iff_log_lt (b := 2) (by norm_num) hr).1 h2
  omega

/-- The four gyroscope sensitivity float literals under `fl32`: the
binary32 rounding fixes the two exactly representable constants 131.0 and
65.5 and takes 32.8 and 16.4 to `8598323 * 2 ^ -18` and
`8598323 * 2 ^ -19` — exactly the branch values of
`MPU6500_GYRO_SENS_of`. -/
theorem gyro_float_literals :
    fl32 131 = 131 ∧ fl32 (131 / 2) = 131 / 2 ∧
    fl32 (164 / 5) = 8598323 / 262144 ∧
    fl32 (82 / 5) = 8598323 / 524288 := by
  have hl250 : Int.log 2 (|(131 : ℚ)|) = 7 := by
    rw [abs_of_pos (by norm_num)]
    exact int_log2_eq (by norm_num) (by norm_num) (by norm_num)
  have hl500 : Int.log 2 (|(131 / 2 : ℚ)|) = 6 := by
    rw [abs_of_pos (by norm_num)]
    exact int_log2_eq (by norm_num) (by norm_num) (by norm_num)
  have hl1000 : Int.log 2 (|(164 / 5 : ℚ)|) = 5 := by
    rw [abs_of_pos (by norm_num)]
    exact int_log2_eq (by norm_num) (by norm_num) (by norm_num)
  have hl2000 : Int.log 2 (|(82 / 5 : ℚ)|) = 4 := by
    rw [abs_of_pos (by norm_num)]
    exact int_log2_eq (by norm_num) (by norm_num) (by norm_num)
  refine ⟨?_, ?_, ?_, ?_⟩
  · unfold fl32
    rw [if_neg (by norm_num), hl250]
    norm_num [roundHalfEven]
  · unfold fl32
    rw [if_neg (by norm_num), hl500]
    norm_num [roundHalfEven]
  · unfold fl32
    rw [if_neg (by norm_num), hl1000]
    norm_num [roundHalfEven]
  · unfold fl32
    rw [if_neg (by norm_num), hl2000]
    norm_num [roundHalfEven]

theorem byte_pair_eq (a b : Nat) (hb : b < 256) :
    (a <<< 8 ||| b : Nat) = 256 * a + b := by
  rw [Nat.shiftLeft_eq]
  have h := Nat.mul_add_lt_is_or (b := b) (i := 8) (by norm_num [hb]) a
  calc a * 2 ^ 8 ||| b = 2 ^ 8 * a ||| b := by rw [Nat.mul_comm]
    _ = 2 ^ 8 * a + b := h.symm
    _ = 256 * a + b := by norm_num

theorem sleep_regBus (f : Nat → Nat) :
    MPU6500_Sleep regBus f =
      (HALStatus.ok,
        Function.update f PWR_MGMT_1 (f PWR_MGMT_1 ||| 0x40)) := by
  simp [MPU6500_Sleep, MPU6500_ReadRegister, MPU6500_WriteRegister, regBus,
    List.range_succ]

theorem wakeUp_regBus (f : Nat → Nat) :
    MPU6500_WakeUp regBus f =
      (HALStatus.ok,
        Function.update f PWR_MGMT_1 (f PWR_MGMT_1 &&& 0xBF)) := by
  simp [MPU6500_WakeUp, MPU6500_ReadRegister, MPU6500_WriteRegister, regBus,
    List.range_succ]

/-! ## Claim theorems -/

/-- C9: for every byte the transport provides for the identity register,
`MPU6500_ReadWhoAmI` stores exactly that byte, unmodified, and returns the
transport's status unchanged. -/
theorem readWhoAmI_passes_through (st : HALStatus) (b : Nat) (bs : List Nat)
    (old : Nat) (rest : List (HALStatus × List Nat)) (log : List Access) :
    MPU6500_ReadWhoAmI scriptBus ⟨(st, b :: bs) :: rest, log⟩ old =
      (st, b, ⟨rest, log ++ [Access.rd (MPU6500_ADDR <<< 1) WHO_AM_I 1]⟩) := by
  simp [MPU6500_ReadWhoAmI, MPU6500_ReadRegister, scriptBus]

/-- C8: for every 2-byte value the transport returns at the temperature base
register, `MPU6500_ReadTemp` stores exactly the signed 16-bit big-endian
combination (first byte high, second byte low), with no calibration offset
and no sensitivity division. -/
theorem readTemp_bigendian (b0 b1 : Nat) (h0 : b0 < 256) (h1 : b1 < 256)
    (t0 : Int) (rest : List (HALStatus × List Nat)) (log : List Access) :
    MPU6500_ReadTemp scriptBus ⟨(HALStatus.ok, [b0, b1]) :: rest, log⟩ t0 =
      (HALStatus.ok,
        (if 256 * b0 + b1 < 32768 then (256 * b0 + b1 : Int)
         else (256 * b0 + b1 : Int) - 65536),
        ⟨rest, log ++ [Access.rd (MPU6500_ADDR <<< 1) TEMP_OUT_H 2]⟩) := by
  simp [MPU6500_ReadTemp, scriptBus, byte_pair_eq b0 b1 h1]
  split <;> (unfold toInt16; omega)

/-- Witness for the C8 theorem: bytes `0xFF 0xFE` combine to `-2`. -/
theorem readTemp_bigendian_witness :
    MPU6500_ReadTemp scriptBus ⟨[(HALStatus.ok, [255, 254])], []⟩ 7 =
      (HALStatus.ok, -2,
        ⟨[], [Access.rd (MPU6500_ADDR <<< 1) TEMP_OUT_H 2]⟩) := by
  have h := readTemp_bigendian 255 254 (by norm_num) (by norm_num) 7 [] []
  norm_num at h
  exact h

/-- C7: `MPU6500_EnableDataReadyInterrupts` writes the full byte `0x01` (only
the data-ready bit) and `MPU6500_DisableDataReadyInterrupts` writes the full
byte `0x00`, regardless of the register's prior value, and each performs
exactly one bus access — a write, never a read. -/
theorem dataReadyInterrupts_full_byte_write (f : Nat → Nat)
    (resps : List (HALStatus × List Nat)) (log : List Access) :
    (MPU6500_EnableDataReadyInterrupts regBus f).2 INT_ENABLE = 0x01 ∧
    (MPU6500_DisableDataReadyInterrupts regBus f).2 INT_ENABLE = 0x00 ∧
    (MPU6500_EnableDataReadyInterrupts scriptBus ⟨resps, log⟩).2.log =
      log ++ [Access.wr (MPU6500_ADDR <<< 1) INT_ENABLE 0x01] ∧
    (MPU6500_DisableDataReadyInterrupts scriptBus ⟨resps, log⟩).2.log =
      log ++ [Access.wr (MPU6500_ADDR <<< 1) INT_ENABLE 0x00] := by
  refine ⟨?_, ?_, ?_, ?_⟩ <;>
    cases resps <;>
      simp [MPU6500_EnableDataReadyInterrupts,
        MPU6500_DisableDataReadyInterrupts, MPU6500_WriteRegister, regBus,
        scriptBus]

/-- C3 (amended): `MPU6500_InitOffsetCalibration` with `sampleCount = 0`
returns `HAL_ERROR` without performing any transport operation (the
transport state is returned untouched, for an arbitrary transport) and
leaves the calibration offsets unchanged. -/
theorem calib_zero_samples {σ : Type} (accelCfg : Nat) (bus : Bus σ) (s : σ)
    (ds : DriverState) :
    MPU6500_InitOffsetCalibration accelCfg bus s ds 0 =
      (HALStatus.error, ds, s) := by
  simp [MPU6500_InitOffsetCalibration]

/-- C3 counterexample: the `sampleCount = 0` rejection status is
`HAL_ERROR`, which is exactly the status a failing transport run of the same
function also returns; the invalid-argument condition is therefore not
distinct from the transport's bus-failure status codes. -/
theorem calib_zero_samples_cex :
    (MPU6500_InitOffsetCalibration MPU6500_DEFAULT_ACCEL_CONFIG scriptBus
        ⟨[(HALStatus.error, [])], []⟩ ⟨(0, 0, 0), (0, 0, 0)⟩ 1).1 =
      (MPU6500_InitOffsetCalibration MPU6500_DEFAULT_ACCEL_CONFIG scriptBus
        ⟨[], []⟩ ⟨(0, 0, 0), (0, 0, 0)⟩ 0).1 := by
  decide

set_option maxRecDepth 4096 in
/-- C6: on the faithful register-file transport, calling `MPU6500_Sleep`
twice leaves `PWR_MGMT_1` with the same final value as calling it once, and
`MPU6500_WakeUp` after `MPU6500_Sleep` clears only the sleep bit (bit 6),
leaving every other bit of the register — in particular the clock-source
field — exactly as it was initially. -/
theorem sleep_twice_idem_wake_preserves (f : Nat → Nat)
    (h : f PWR_MGMT_1 < 256) :
    (MPU6500_Sleep regBus (MPU6500_Sleep regBus f).2).2 PWR_MGMT_1 =
      (MPU6500_Sleep regBus f).2 PWR_MGMT_1 ∧
    Nat.testBit
      ((MPU6500_WakeUp regBus (MPU6500_Sleep regBus f).2).2 PWR_MGMT_1) 6 =
      false ∧
    ∀ i, i ≠ 6 →
      Nat.testBit
        ((MPU6500_WakeUp regBus (MPU6500_Sleep regBus f).2).2 PWR_MGMT_1) i =
        Nat.testBit (f PWR_MGMT_1) i := by
  simp only [sleep_regBus, wakeUp_regBus, Function.update_same]
  refine ⟨by simp [Nat.lor_assoc], ?_, ?_⟩
  · have H : ∀ r : Nat, r < 256 →
        Nat.testBit ((r ||| 64) &&& 191) 6 = false := by decide
    exact H _ h
  · intro i hi
    rcases Nat.lt_or_ge i 8 with h8 | h8
    · have H : ∀ r : Nat, r < 256 → ∀ i : Nat, i < 8 → i ≠ 6 →
          Nat.testBit ((r ||| 64) &&& 191) i = Nat.testBit r i := by decide
      exact H _ h i h8 hi
    · have hle : (2 : Nat) ^ 8 ≤ 2 ^ i := Nat.pow_le_pow_right (by norm_num) h8
      have hx : (f PWR_MGMT_1 ||| 64) &&& 191 < 2 ^ i :=
        lt_of_le_of_lt Nat.and_le_right (lt_of_lt_of_le (by norm_num) hle)
      have hy : f PWR_MGMT_1 < 2 ^ i := lt_of_lt_of_le h (le_trans (by norm_num) hle)
      rw [Nat.testBit_lt_two_pow hx, Nat.testBit_lt_two_pow hy]

/-- Witness for the C6 theorem at the initial register value 1 (a nonzero
clock-source field): bit 0 survives the sleep/wake round trip. -/
theorem sleep_twice_idem_wake_preserves_witness :
    (fun _ : Nat => 1) PWR_MGMT_1 < 256 ∧
    Nat.testBit
      ((MPU6500_WakeUp regBus
          (MPU6500_Sleep regBus (fun _ : Nat => 1)).2).2 PWR_MGMT_1) 0 =
      Nat.testBit ((fun _ : Nat => 1) PWR_MGMT_1) 0 :=
  ⟨by norm_num,
   (sleep_twice_idem_wake_preserves (fun _ : Nat => 1) (by norm_num)).2.2 0
     (by decide)⟩

/-- C10: each read operation returns before writing any output location when
the bus read fails, for an arbitrary transport: the caller-supplied
locations keep their prior contents. -/
theorem reads_frame_on_failure {σ : Type} (accelCfg gyroCfg : Nat)
    (bus : Bus σ) (s : σ) (ds : DriverState) (x y z : ℚ) (rx ry rz : Int)
    (t : Int) :
    ((MPU6500_ReadAccel accelCfg bus s ds x y z).1 ≠ HALStatus.ok →
      (MPU6500_ReadAccel accelCfg bus s ds x y z).2.1 = (x, y, z)) ∧
    ((MPU6500_ReadGyro gyroCfg bus s ds x y z).1 ≠ HALStatus.ok →
      (MPU6500_ReadGyro gyroCfg bus s ds x y z).2.1 = (x, y, z)) ∧
    ((MPU6500_ReadRawAccel bus s rx ry rz).1 ≠ HALStatus.ok →
      (MPU6500_ReadRawAccel bus s rx ry rz).2.1 = (rx, ry, rz)) ∧
    ((MPU6500_ReadRawGyro bus s rx ry rz).1 ≠ HALStatus.ok →
      (MPU6500_ReadRawGyro bus s rx ry rz).2.1 = (rx, ry, rz)) ∧
    ((MPU6500_ReadTemp bus s t).1 ≠ HALStatus.ok →
      (MPU6500_ReadTemp bus s t).2.1 = t) := by
  refine ⟨?_, ?_, ?_, ?_, ?_⟩
  · intro hne
    unfold MPU6500_ReadAccel at hne ⊢
    rcases hbr : bus.memRead s (MPU6500_ADDR <<< 1) ACCEL_XOUT_H 6 with
      ⟨st, buf, s1⟩
    by_cases hst : st = HALStatus.ok
    · subst hst
      rw [hbr] at hne
      simp at hne
    · simp [hst]
  · intro hne
    unfold MPU6500_ReadGyro at hne ⊢
    rcases hbr : bus.memRead s (MPU6500_ADDR <<< 1) GYRO_XOUT_H 6 with
      ⟨st, buf, s1⟩
    by_cases hst : st = HALStatus.ok
    · subst hst
      rw [hbr] at hne
      simp at hne
    · simp [hst]
  · intro hne
    unfold MPU6500_ReadRawAccel at hne ⊢
    rcases hbr : bus.memRead s (MPU6500_ADDR <<< 1) ACCEL_XOUT_H 6 with
      ⟨st, buf, s1⟩
    by_cases hst : st = HALStatus.ok
    · subst hst
      rw [hbr] at hne
      simp at hne
    · simp [hst]
  · intro hne
    unfold MPU6500_ReadRawGyro at hne ⊢
    rcases hbr : bus.memRead s (MPU6500_ADDR <<< 1) GYRO_XOUT_H 6 with
      ⟨st, buf, s1⟩
    by_cases hst : st = HALStatus.ok
    · subst hst
      rw [hbr] at hne
      simp at hne
    · simp [hst]
  · intro hne
    unfold MPU6500_ReadTemp at hne ⊢
    rcases hbr : bus.memRead s (MPU6500_ADDR <<< 1) TEMP_OUT_H 2 with
      ⟨st, buf, s1⟩
    by_cases hst : st = HALStatus.ok
    · subst hst
      rw [hbr] at hne
      simp at hne
    · simp [hst]

/-- Witness for the C10 theorem on a transport whose read fails with
`HAL_BUSY`: the prior output contents survive. -/
theorem reads_frame_on_failure_witness :
    (MPU6500_ReadAccel 8 scriptBus ⟨[(HALStatus.busy, [])], []⟩
        ⟨(0, 0, 0), (0, 0, 0)⟩ 1 2 3).2.1 = (1, 2, 3) ∧
    (MPU6500_ReadTemp scriptBus ⟨[(HALStatus.busy, [])], []⟩ 7).2.1 = 7 :=
  ⟨(reads_frame_on_failure 8 8 scriptBus ⟨[(HALStatus.busy, [])], []⟩
        ⟨(0, 0, 0), (0, 0, 0)⟩ 1 2 3 4 5 6 7).1 (by decide),
   (reads_frame_on_failure 8 8 scriptBus ⟨[(HALStatus.busy, [])], []⟩
        ⟨(0, 0, 0), (0, 0, 0)⟩ 1 2 3 4 5 6 7).2.2.2.2 (by decide)⟩

theorem readAccel_scriptBus_ok (acfg : Nat) (b0 b1 b2 b3 b4 b5 : Nat)
    (ds : DriverState) (rest : List (HALStatus × List Nat))
    (log : List Access) :
    MPU6500_ReadAccel acfg scriptBus
        ⟨(HALStatus.ok, [b0, b1, b2, b3, b4, b5]) :: rest, log⟩ ds 0 0 0 =
      (HALStatus.ok,
        (((toInt16 (toInt16 ((b0 <<< 8 ||| b1 : Nat) : Int) -
              ds.accel_offset.1) : Int) : ℚ) / MPU6500_ACCEL_SENS_of acfg,
         ((toInt16 (toInt16 ((b2 <<< 8 ||| b3 : Nat) : Int) -
              ds.accel_offset.2.1) : Int) : ℚ) / MPU6500_ACCEL_SENS_of acfg,
         ((toInt16 (toInt16 ((b4 <<< 8 ||| b5 : Nat) : Int) -
              ds.accel_offset.2.2) : Int) : ℚ) / MPU6500_ACCEL_SENS_of acfg),
        ⟨rest, log ++ [Access.rd (MPU6500_ADDR <<< 1) ACCEL_XOUT_H 6]⟩) := by
  simp [MPU6500_ReadAccel, scriptBus]

theorem readGyro_scriptBus_ok (gcfg : Nat) (c0 c1 c2 c3 c4 c5 : Nat)
    (ds : DriverState) (rest : List (HALStatus × List Nat))
    (log : List Access) :
    MPU6500_ReadGyro gcfg scriptBus
        ⟨(HALStatus.ok, [c0, c1, c2, c3, c4, c5]) :: rest, log⟩ ds 0 0 0 =
      (HALStatus.ok,
        (fl32 (((toInt16 (toInt16 ((c0 <<< 8 ||| c1 : Nat) : Int) -
              ds.gyro_offset.1) : Int) : ℚ) / MPU6500_GYRO_SENS_of gcfg),
         fl32 (((toInt16 (toInt16 ((c2 <<< 8 ||| c3 : Nat) : Int) -
              ds.gyro_offset.2.1) : Int) : ℚ) / MPU6500_GYRO_SENS_of gcfg),
         fl32 (((toInt16 (toInt16 ((c4 <<< 8 ||| c5 : Nat) : Int) -
              ds.gyro_offset.2.2) : Int) : ℚ) / MPU6500_GYRO_SENS_of gcfg)),
        ⟨rest, log ++ [Access.rd (MPU6500_ADDR <<< 1) GYRO_XOUT_H 6]⟩) := by
  simp [MPU6500_ReadGyro, scriptBus]

/-- C1 (amended): for every 6-byte block the transport returns and every
calibration offset triple, `MPU6500_ReadAccel` returns, per axis, exactly
`wrap16 (raw - offset) / sensitivity` (the accelerometer sensitivities are
powers of two, so the float division is exact), and `MPU6500_ReadGyro`
returns the binary32 rounding `fl32` of `wrap16 (raw - offset) /
sensitivity`, where `raw` is the signed big-endian combination of the
corresponding byte pair, `wrap16` is the `int16_t` wrap-around of the C
subtraction, and the sensitivity is the value of the
compile-time-selected float constant; whenever `raw - offset` fits in the
signed 16-bit range the wrap disappears and the result is exactly
`(raw - offset) / sensitivity` (for the gyroscope: its binary32
rounding). -/
theorem readAccel_readGyro_conversion (acfg gcfg : Nat)
    (b0 b1 b2 b3 b4 b5 c0 c1 c2 c3 c4 c5 : Nat)
    (hb1 : b1 < 256) (hb3 : b3 < 256) (hb5 : b5 < 256)
    (hc1 : c1 < 256) (hc3 : c3 < 256) (hc5 : c5 < 256)
    (ds : DriverState) (restA restG : List (HALStatus × List Nat))
    (logA logG : List Access) :
    (MPU6500_ReadAccel acfg scriptBus
        ⟨(HALStatus.ok, [b0, b1, b2, b3, b4, b5]) :: restA, logA⟩
        ds 0 0 0).1 = HALStatus.ok ∧
    (MPU6500_ReadAccel acfg scriptBus
        ⟨(HALStatus.ok, [b0, b1, b2, b3, b4, b5]) :: restA, logA⟩
        ds 0 0 0).2.1 =
      (((toInt16 (toInt16 (256 * (b0 : Int) + b1) - ds.accel_offset.1) :
          Int) : ℚ) / MPU6500_ACCEL_SENS_of acfg,
       ((toInt16 (toInt16 (256 * (b2 : Int) + b3) - ds.accel_offset.2.1) :
          Int) : ℚ) / MPU6500_ACCEL_SENS_of acfg,
       ((toInt16 (toInt16 (256 * (b4 : Int) + b5) - ds.accel_offset.2.2) :
          Int) : ℚ) / MPU6500_ACCEL_SENS_of acfg) ∧
    (MPU6500_ReadGyro gcfg scriptBus
        ⟨(HALStatus.ok, [c0, c1, c2, c3, c4, c5]) :: restG, logG⟩
        ds 0 0 0).1 = HALStatus.ok ∧
    (MPU6500_ReadGyro gcfg scriptBus
        ⟨(HALStatus.ok, [c0, c1, c2, c3, c4, c5]) :: restG, logG⟩
        ds 0 0 0).2.1 =
      (fl32 (((toInt16 (toInt16 (256 * (c0 : Int) + c1) - ds.gyro_offset.1) :
          Int) : ℚ) / MPU6500_GYRO_SENS_of gcfg),
       fl32 (((toInt16 (toInt16 (256 * (c2 : Int) + c3) -
          ds.gyro_offset.2.1) : Int) : ℚ) / MPU6500_GYRO_SENS_of gcfg),
       fl32 (((toInt16 (toInt16 (256 * (c4 : Int) + c5) -
          ds.gyro_offset.2.2) : Int) : ℚ) / MPU6500_GYRO_SENS_of gcfg)) ∧
    (-32768 ≤ toInt16 (256 * (b0 : Int) + b1) - ds.accel_offset.1 →
      toInt16 (256 * (b0 : Int) + b1) - ds.accel_offset.1 < 32768 →
      (MPU6500_ReadAccel acfg scriptBus
          ⟨(HALStatus.ok, [b0, b1, b2, b3, b4, b5]) :: restA, logA⟩
          ds 0 0 0).2.1.1 =
        ((toInt16 (256 * (b0 : Int) + b1) - ds.accel_offset.1 : Int) : ℚ) /
          MPU6500_ACCEL_SENS_of acfg) ∧
    (-32768 ≤ toInt16 (256 * (b2 : Int) + b3) - ds.accel_offset.2.1 →
      toInt16 (256 * (b2 : Int) + b3) - ds.accel_offset.2.1 < 32768 →
      (MPU6500_ReadAccel acfg scriptBus
          ⟨(HALStatus.ok, [b0, b1, b2, b3, b4, b5]) :: restA, logA⟩
          ds 0 0 0).2.1.2.1 =
        ((toInt16 (256 * (b2 : Int) + b3) - ds.accel_offset.2.1 : Int) : ℚ) /
          MPU6500_ACCEL_SENS_of acfg) ∧
    (-32768 ≤ toInt16 (256 * (b4 : Int) + b5) - ds.accel_offset.2.2 →
      toInt16 (256 * (b4 : Int) + b5) - ds.accel_offset.2.2 < 32768 →
      (MPU6500_ReadAccel acfg scriptBus
          ⟨(HALStatus.ok, [b0, b1, b2, b3, b4, b5]) :: restA, logA⟩
          ds 0 0 0).2.1.2.2 =
        ((toInt16 (256 * (b4 : Int) + b5) - ds.accel_offset.2.2 : Int) : ℚ) /
          MPU6500_ACCEL_SENS_of acfg) ∧
    (-32768 ≤ toInt16 (256 * (c0 : Int) + c1) - ds.gyro_offset.1 →
      toInt16 (256 * (c0 : Int) + c1) - ds.gyro_offset.1 < 32768 →
      (MPU6500_ReadGyro gcfg scriptBus
          ⟨(HALStatus.ok, [c0, c1, c2, c3, c4, c5]) :: restG, logG⟩
          ds 0 0 0).2.1.1 =
        fl32 (((toInt16 (256 * (c0 : Int) + c1) - ds.gyro_offset.1 : Int) :
          ℚ) / MPU6500_GYRO_SENS_of gcfg)) ∧
    (-32768 ≤ toInt16 (256 * (c2 : Int) + c3) - ds.gyro_offset.2.1 →
      toInt16 (256 * (c2 : Int) + c3) - ds.gyro_offset.2.1 < 32768 →
      (MPU6500_ReadGyro gcfg scriptBus
          ⟨(HALStatus.ok, [c0, c1, c2, c3, c4, c5]) :: restG, logG⟩
          ds 0 0 0).2.1.2.1 =
        fl32 (((toInt16 (256 * (c2 : Int) + c3) - ds.gyro_offset.2.1 : Int) :
          ℚ) / MPU6500_GYRO_SENS_of gcfg)) ∧
    (-32768 ≤ toInt16 (256 * (c4 : Int) + c5) - ds.gyro_offset.2.2 →
      toInt16 (256 * (c4 : Int) + c5) - ds.gyro_offset.2.2 < 32768 →
      (MPU6500_ReadGyro gcfg scriptBus
          ⟨(HALStatus.ok, [c0, c1, c2, c3, c4, c5]) :: restG, logG⟩
          ds 0 0 0).2.1.2.2 =
        fl32 (((toInt16 (256 * (c4 : Int) + c5) - ds.gyro_offset.2.2 : Int) :
          ℚ) / MPU6500_GYRO_SENS_of gcfg)) := by
  have hA := readAccel_scriptBus_ok acfg b0 b1 b2 b3 b4 b5 ds restA logA
  have hG := readGyro_scriptBus_ok gcfg c0 c1 c2 c3 c4 c5 ds restG logG
  rw [byte_pair_eq b0 b1 hb1, byte_pair_eq b2 b3 hb3,
    byte_pair_eq b4 b5 hb5] at hA
  rw [byte_pair_eq c0 c1 hc1, byte_pair_eq c2 c3 hc3,
    byte_pair_eq c4 c5 hc5] at hG
  push_cast at hA hG
  refine ⟨by rw [hA], by rw [hA], by rw [hG], by rw [hG], ?_, ?_, ?_, ?_,
    ?_, ?_⟩
  all_goals intro h1 h2
  all_goals first
  | (rw [hA]; rw [toInt16_eq_self_of_bounds _ h1 h2])
  | (rw [hG]; rw [toInt16_eq_self_of_bounds _ h1 h2])

theorem not_dyadic_131 (m e : Int) : (m : ℚ) * 2 ^ e ≠ 2 / 131 := by
  intro h
  rcases Int.eq_nat_or_neg e with ⟨n, rfl | rfl⟩
  · rw [zpow_natCast] at h
    have h1 : ((131 * (m * 2 ^ n) : Int) : ℚ) = ((2 : Int) : ℚ) := by
      push_cast
      linarith [h]
    have h2 : (131 : Int) * (m * 2 ^ n) = 2 := by exact_mod_cast h1
    have hdvd : (131 : Int) ∣ 2 := ⟨m * 2 ^ n, h2.symm⟩
    norm_num at hdvd
  · rw [zpow_neg, zpow_natCast] at h
    have h1 : (131 : ℚ) * m = 2 * 2 ^ n := by
      field_simp at h
      linarith [h]
    have h2 : (131 : Int) * m = 2 ^ (n + 1) := by
      have h3 : (131 : ℚ) * m = 2 ^ (n + 1) := by rw [h1]; ring
      exact_mod_cast h3
    have hdvd : (131 : Int) ∣ 2 ^ (n + 1) := ⟨m, h2.symm⟩
    have hp : Prime (131 : Int) := by norm_num
    have h4 := hp.dvd_of_dvd_pow hdvd
    norm_num at h4

theorem fl32_two_div_131_ne : fl32 (2 / 131) ≠ 2 / 131 := by
  unfold fl32
  rw [if_neg (by norm_num)]
  exact not_dyadic_131 _ _

/-- C1 counterexample, both defects of the claim as stated: (a) with the
default ±4g build, raw X sample `-32768` (bytes `0x80 0x00`) and stored X
offset `32767`, the C subtraction is stored into an `int16_t` and wraps to
`1`, so `MPU6500_ReadAccel` returns `1 / 8192` instead of the claimed
`(raw - offset) / sensitivity = -65535 / 8192`; (b) with the default
65.5f gyroscope sensitivity, raw X sample `1` and offset `0`,
`MPU6500_ReadGyro` returns the binary32 rounding of `2 / 131`, which is
not the exact quotient `(raw - offset) / sensitivity` (no dyadic float can
equal `2 / 131`). -/
theorem read_conversion_cex :
    (MPU6500_ReadAccel MPU6500_DEFAULT_ACCEL_CONFIG scriptBus
        ⟨[(HALStatus.ok, [128, 0, 0, 0, 0, 0])], []⟩
        ⟨(32767, 0, 0), (0, 0, 0)⟩ 0 0 0).2.1.1 = 1 / 8192 ∧
    (MPU6500_ReadAccel MPU6500_DEFAULT_ACCEL_CONFIG scriptBus
        ⟨[(HALStatus.ok, [128, 0, 0, 0, 0, 0])], []⟩
        ⟨(32767, 0, 0), (0, 0, 0)⟩ 0 0 0).2.1.1 ≠
      ((-32768 - 32767 : Int) : ℚ) /
        MPU6500_ACCEL_SENS_of MPU6500_DEFAULT_ACCEL_CONFIG ∧
    (MPU6500_ReadGyro MPU6500_DEFAULT_GYRO_CONFIG scriptBus
        ⟨[(HALStatus.ok, [0, 1, 0, 0, 0, 0])], []⟩
        ⟨(0, 0, 0), (0, 0, 0)⟩ 0 0 0).2.1.1 ≠
      ((1 : Int) : ℚ) /
        MPU6500_GYRO_SENS_of MPU6500_DEFAULT_GYRO_CONFIG := by
  have h := readAccel_scriptBus_ok MPU6500_DEFAULT_ACCEL_CONFIG 128 0 0 0 0 0
    ⟨(32767, 0, 0), (0, 0, 0)⟩ [] []
  have hg := readGyro_scriptBus_ok MPU6500_DEFAULT_GYRO_CONFIG 0 1 0 0 0 0
    ⟨(0, 0, 0), (0, 0, 0)⟩ [] []
  refine ⟨?_, ?_, ?_⟩
  · rw [h]
    norm_num [toInt16, MPU6500_ACCEL_SENS_of, MPU6500_DEFAULT_ACCEL_CONFIG,
      MPU6500_ACCEL_FS_2G, MPU6500_ACCEL_FS_4G, MPU6500_ACCEL_FS_8G,
      MPU6500_ACCEL_FS_16G, Nat.shiftLeft_eq]
  · rw [h]
    norm_num [toInt16, MPU6500_ACCEL_SENS_of, MPU6500_DEFAULT_ACCEL_CONFIG,
      MPU6500_ACCEL_FS_2G, MPU6500_ACCEL_FS_4G, MPU6500_ACCEL_FS_8G,
      MPU6500_ACCEL_FS_16G, Nat.shiftLeft_eq]
  · rw [hg]
    norm_num [toInt16, MPU6500_GYRO_SENS_of, MPU6500_DEFAULT_GYRO_CONFIG,
      MPU6500_GYRO_FS_250DPS, MPU6500_GYRO_FS_500DPS,
      MPU6500_GYRO_FS_1000DPS, MPU6500_GYRO_FS_2000DPS, Nat.shiftLeft_eq]
    exact fl32_two_div_131_ne

/-- Witness for the C1 theorem at the claim's particular values: ±2g
configuration (sensitivity 16384), zero offsets, raw X `16384`, raw Y `0`,
raw Z `-16384` give exactly `(1, 0, -1)` g. -/
theorem readAccel_readGyro_conversion_witness :
    (MPU6500_ReadAccel MPU6500_ACCEL_FS_2G scriptBus
        ⟨[(HALStatus.ok, [64, 0, 0, 0, 192, 0])], []⟩
        ⟨(0, 0, 0), (0, 0, 0)⟩ 0 0 0).2.1 = (1, 0, -1) := by
  have H := readAccel_readGyro_conversion MPU6500_ACCEL_FS_2G
    MPU6500_DEFAULT_GYRO_CONFIG 64 0 0 0 192 0 0 0 0 0 0 0
    (by norm_num) (by norm_num) (by norm_num) (by norm_num) (by norm_num)
    (by norm_num) ⟨(0, 0, 0), (0, 0, 0)⟩ [] [] [] []
  rw [H.2.1]
  norm_num [toInt16, MPU6500_ACCEL_SENS_of, MPU6500_ACCEL_FS_2G,
    MPU6500_ACCEL_FS_4G, MPU6500_ACCEL_FS_8G, MPU6500_ACCEL_FS_16G]

/-- Scripted transport for the C2 evaluation: a successful wake-up followed
by three identical noise-free samples — accelerometer raw `(0, 0, 8192)`
(Z exactly 1 g in the ±4g build) and gyroscope raw `(-1, 0, 0)`. -/
def calibCexScript : List (HALStatus × List Nat) :=
  [(HALStatus.ok, [0]), (HALStatus.ok, []),
   (HALStatus.ok, [0, 0, 0, 0, 32, 0]),
   (HALStatus.ok, [255, 255, 0, 0, 0, 0]),
   (HALStatus.ok, [0, 0, 0, 0, 32, 0]),
   (HALStatus.ok, [255, 255, 0, 0, 0, 0]),
   (HALStatus.ok, [0, 0, 0, 0, 32, 0]),
   (HALStatus.ok, [255, 255, 0, 0, 0, 0])] 

set_option maxRecDepth 100000 in
/-- C2: evaluating the embedded calibration on 3 identical noise-free
samples whose gyroscope X raw value is `-1` succeeds but stores gyroscope X
offset `21844`, not the per-axis integer mean `-1`: the `int32_t` sum `-3`
is converted to `uint32_t` by the C usual arithmetic conversions before the
division by the `uint32_t` sample count.  The accelerometer offsets
(nonnegative sums, Z reduced by the 1g raw count 8192) come out `(0,0,0)`
as the claim states. -/
theorem calib_unsigned_division_eval :
    (MPU6500_InitOffsetCalibration MPU6500_DEFAULT_ACCEL_CONFIG scriptBus
        ⟨calibCexScript, []⟩ ⟨(0, 0, 0), (0, 0, 0)⟩ 3).1 = HALStatus.ok ∧
    (MPU6500_InitOffsetCalibration MPU6500_DEFAULT_ACCEL_CONFIG scriptBus
        ⟨calibCexScript, []⟩ ⟨(0, 0, 0), (0, 0, 0)⟩ 3).2.1.accel_offset =
      (0, 0, 0) ∧
    (MPU6500_InitOffsetCalibration MPU6500_DEFAULT_ACCEL_CONFIG scriptBus
        ⟨calibCexScript, []⟩ ⟨(0, 0, 0), (0, 0, 0)⟩ 3).2.1.gyro_offset.1 =
      21844 ∧
    (MPU6500_InitOffsetCalibration MPU6500_DEFAULT_ACCEL_CONFIG scriptBus
        ⟨calibCexScript, []⟩ ⟨(0, 0, 0), (0, 0, 0)⟩ 3).2.1.gyro_offset.1 ≠
      -1 := by
  refine ⟨?_, ?_, ?_, ?_⟩ <;> decide

theorem calibLoop_fail (acfg : Nat) :
    ∀ (n : Nat) (good : List (HALStatus × List Nat)),
      (∀ r ∈ good, r.1 = HALStatus.ok) →
      ∀ (e : HALStatus), e ≠ HALStatus.ok →
      ∀ (bs : List Nat) (rest : List (HALStatus × List Nat))
        (log : List Access) (aSum gSum : Int × Int × Int),
        good.length < 2 * n →
        (calibLoop acfg scriptBus n ⟨good ++ (e, bs) :: rest, log⟩
            aSum gSum).1 = e := by
  intro n
  induction n with
  | zero =>
    intro good _ e _ bs rest log aSum gSum hlen
    simp at hlen
  | succ m ih =>
    intro good hgood e he bs rest log aSum gSum hlen
    rcases good with _ | ⟨⟨st1, by1⟩, good1⟩
    · simp [calibLoop, MPU6500_ReadRawAccel, scriptBus, he]
    · have h1 : st1 = HALStatus.ok := hgood ⟨st1, by1⟩ (by simp)
      subst h1
      rcases good1 with _ | ⟨⟨st2, by2⟩, good2⟩
      · simp [calibLoop, MPU6500_ReadRawAccel, MPU6500_ReadRawGyro,
          scriptBus, he]
      · have h2 : st2 = HALStatus.ok := hgood ⟨st2, by2⟩ (by simp)
        subst h2
        simp only [calibLoop, MPU6500_ReadRawAccel, MPU6500_ReadRawGyro,
          scriptBus, HAL_Delay, List.cons_append, ne_eq,
          not_true_eq_false, if_false, ite_false, reduceIte]
        exact ih good2 (fun r hr => hgood r (by simp [hr])) e he bs rest _ _ _
          (by simp at hlen ⊢; omega)

/-- C4: for every positive sample count, if a raw read fails at any point of
the sampling loop (after an arbitrary run of successful responses), the
calibration returns that transport error and leaves all six stored
calibration offsets exactly unchanged. -/
theorem calib_abort_preserves_offsets (acfg : Nat) (samples : Nat)
    (hs : 0 < samples) (wb wj : List Nat)
    (good : List (HALStatus × List Nat))
    (hgood : ∀ r ∈ good, r.1 = HALStatus.ok)
    (e : HALStatus) (he : e ≠ HALStatus.ok) (bs : List Nat)
    (rest : List (HALStatus × List Nat)) (ds : DriverState)
    (hlen : good.length < 2 * samples) :
    (MPU6500_InitOffsetCalibration acfg scriptBus
        ⟨(HALStatus.ok, wb) :: (HALStatus.ok, wj) ::
          (good ++ (e, bs) :: rest), []⟩ ds samples).1 = e ∧
    (MPU6500_InitOffsetCalibration acfg scriptBus
        ⟨(HALStatus.ok, wb) :: (HALStatus.ok, wj) ::
          (good ++ (e, bs) :: rest), []⟩ ds samples).2.1 = ds := by
  have h0 : ¬samples = 0 := by omega
  have hW : MPU6500_WakeUp scriptBus
      ⟨(HALStatus.ok, wb) :: (HALStatus.ok, wj) ::
        (good ++ (e, bs) :: rest), []⟩ =
      (HALStatus.ok,
        ⟨good ++ (e, bs) :: rest,
          [Access.rd (MPU6500_ADDR <<< 1) PWR_MGMT_1 1,
           Access.wr (MPU6500_ADDR <<< 1) PWR_MGMT_1
             (wb.getD 0 0 &&& 0xBF)]⟩) := by
    simp [MPU6500_WakeUp, MPU6500_ReadRegister, MPU6500_WriteRegister,
      scriptBus]
  have hL := calibLoop_fail acfg samples good hgood e he bs rest
    [Access.rd (MPU6500_ADDR <<< 1) PWR_MGMT_1 1,
     Access.wr (MPU6500_ADDR <<< 1) PWR_MGMT_1 (wb.getD 0 0 &&& 0xBF)]
    (0, 0, 0) (0, 0, 0) hlen
  unfold MPU6500_InitOffsetCalibration
  rw [if_neg h0, hW]
  simp only [ne_eq, reduceIte]
  rcases hcl : calibLoop acfg scriptBus samples
      ⟨good ++ (e, bs) :: rest,
        [Access.rd (MPU6500_ADDR <<< 1) PWR_MGMT_1 1,
         Access.wr (MPU6500_ADDR <<< 1) PWR_MGMT_1
           (wb.getD 0 0 &&& 0xBF)]⟩ (0, 0, 0) (0, 0, 0) with
    ⟨st2, ⟨aS, gS⟩, s2⟩
  rw [hcl] at hL
  simp only at hL
  subst hL
  simp [he]

/-- Witness for the C4 theorem: one requested sample, a successful wake-up,
and a transport timeout on the first raw accelerometer read leave the prior
offsets `(1,2,3) / (4,5,6)` untouched. -/
theorem calib_abort_preserves_offsets_witness :
    (MPU6500_InitOffsetCalibration 8 scriptBus
        ⟨[(HALStatus.ok, [0]), (HALStatus.ok, []), (HALStatus.timeout, [])],
          []⟩ ⟨(1, 2, 3), (4, 5, 6)⟩ 1).1 = HALStatus.timeout ∧
    (MPU6500_InitOffsetCalibration 8 scriptBus
        ⟨[(HALStatus.ok, [0]), (HALStatus.ok, []), (HALStatus.timeout, [])],
          []⟩ ⟨(1, 2, 3), (4, 5, 6)⟩ 1).2.1 = ⟨(1, 2, 3), (4, 5, 6)⟩ := by
  have H := calib_abort_preserves_offsets 8 1 (by norm_num) [0] []
    [] (by simp) HALStatus.timeout (by decide) [] [] ⟨(1, 2, 3), (4, 5, 6)⟩
    (by norm_num)
  simpa using H

/-- The nominal sequence of the nine register accesses performed by a fully
successful `MPU6500_Init` run: one access each for steps 1 (reset) and 2
(clock/wake), two writes each for steps 3 (accelerometer) and 4
(gyroscope), the read-modify-write pair of step 5 (temperature enable,
where `rb` is the byte the transport returned for the read), and the step 6
interrupt-pin write. -/
def initAccessSeq (accelCfg gyroCfg rb : Nat) : List Access :=
  [Access.wr (MPU6500_ADDR <<< 1) PWR_MGMT_1 0x80,
   Access.wr (MPU6500_ADDR <<< 1) PWR_MGMT_1 0x01,
   Access.wr (MPU6500_ADDR <<< 1) ACCEL_CONFIG accelCfg,
   Access.wr (MPU6500_ADDR <<< 1) ACCEL_CONFIG_2 0x04,
   Access.wr (MPU6500_ADDR <<< 1) GYRO_CONFIG gyroCfg,
   Access.wr (MPU6500_ADDR <<< 1) CONFIG 0x04,
   Access.rd (MPU6500_ADDR <<< 1) PWR_MGMT_1 1,
   Access.wr (MPU6500_ADDR <<< 1) PWR_MGMT_1 (rb &&& 0xEF),
   Access.wr (MPU6500_ADDR <<< 1) INT_PIN_CFG 0xB0]

/-- C5: if the transport answers the first `j` register accesses with
success and fails on access `j + 1` (for any `j < 9`, covering a first
failure in each of the six initialization steps), `MPU6500_Init` returns
that transport error verbatim and its access log is exactly the first
`j + 1` accesses of the nominal sequence, in order — no access of any later
step occurs. -/
theorem init_failfast_trace (accelCfg gyroCfg : Nat) (j : Nat) (hj : j < 9)
    (rb : Nat) (e : HALStatus) (he : e ≠ HALStatus.ok) (bs : List Nat)
    (rest : List (HALStatus × List Nat)) :
    (MPU6500_Init accelCfg gyroCfg scriptBus
        ⟨List.replicate j (HALStatus.ok, [rb]) ++ (e, bs) :: rest, []⟩).1 =
      e ∧
    (MPU6500_Init accelCfg gyroCfg scriptBus
        ⟨List.replicate j (HALStatus.ok, [rb]) ++ (e, bs) :: rest, []⟩).2.log =
      (initAccessSeq accelCfg gyroCfg rb).take (j + 1) := by
  interval_cases j <;>
    (constructor <;>
      simp [MPU6500_Init, MPU6500_Reset, MPU6500_ConfigureClock,
        MPU6500_ConfigureAccel, MPU6500_ConfigureGyro,
        MPU6500_EnableTemperatureSensor, MPU6500_ConfigureInterrupts,
        MPU6500_WriteRegister, MPU6500_ReadRegister, scriptBus, HAL_Delay,
        initAccessSeq, he, List.replicate])

/-- Witness for the C5 theorem: a transport failing with `HAL_BUSY` on the
third register access (the first accelerometer configuration write of step
3) stops the sequence right there. -/
theorem init_failfast_trace_witness :
    (MPU6500_Init 8 8 scriptBus
        ⟨[(HALStatus.ok, [0]), (HALStatus.ok, [0]), (HALStatus.busy, [])],
          []⟩).1 = HALStatus.busy ∧
    (MPU6500_Init 8 8 scriptBus
        ⟨[(HALStatus.ok, [0]), (HALStatus.ok, [0]), (HALStatus.busy, [])],
          []⟩).2.log =
      [Access.wr (MPU6500_ADDR <<< 1) PWR_MGMT_1 0x80,
       Access.wr (MPU6500_ADDR <<< 1) PWR_MGMT_1 0x01,
       Access.wr (MPU6500_ADDR <<< 1) ACCEL_CONFIG 8] := by
  have H := init_failfast_trace 8 8 2 (by norm_num) 0 HALStatus.busy
    (by decide) [] []
  simpa [initAccessSeq, List.replicate] using H
